import Mathlib

/-!
Shallow embedding of the WebSocket client `ApiService` from
`src/frontend/src/services/api.ts` (the second, queue-bearing class
definition in that file, lines 143-436, which is the one exported).

The client is a single mutable object; we model it as a record
`ClientState` and each method as a pure function from the old state to
the new state together with a list of externally observable effects
(callback invocations, socket sends, scheduled retries, socket close).
External, browser-provided operations are parameters:
  - `b64 : String -> String` stands for the FileReader base64 encoding
    of a blob (blobs are modelled as their opaque contents, `String`);
  - `sendOk` says whether a given `ws.send` call throws;
  - `ctorOk` says whether `new WebSocket(url)` throws;
  - `parse : String -> Option P` stands for `JSON.parse` into a
    `ProcessedFrame` (`P` is an opaque type parameter);
  - `reply : ReplyOutcome P` is the outcome of the one-shot response
    listener installed by `sendFrame`/`sendAudio`.
Callbacks are opaque handles of a type parameter `C`, so that storing
and overwriting the registered callback set is observable.
-/

namespace NeuroLens

/-- A webcam frame as queued by the client: video blob, audio blob,
timestamp (`WebcamStream` in `@/types/api`). Blob contents are opaque
strings; the timestamp is a number. -/
structure WebcamStream where
  video : String
  audio : String
  timestamp : Nat
deriving Repr, DecidableEq

/-- The JS `WebSocket.CONNECTING` ready-state constant. -/
def WebSocket.CONNECTING : Nat := 0

/-- The JS `WebSocket.OPEN` ready-state constant. -/
def WebSocket.OPEN : Nat := 1

/-- The part of a browser WebSocket object the client inspects: its
ready state. -/
structure Socket where
  readyState : Nat
deriving Repr, DecidableEq

/-- The mutable fields of the `ApiService` singleton. `C` is the type
of callback sets (`WebSocketCallbacks` objects are opaque handles). -/
structure ClientState (C : Type) where
  ws : Option Socket
  reconnectAttempts : Nat
  isConnecting : Bool
  callbacks : Option C
  frameQueue : List WebcamStream
  isProcessingQueue : Bool
deriving Repr, DecidableEq

/-- `private maxReconnectAttempts = 5`. -/
def maxReconnectAttempts : Nat := 5

/-- `private reconnectTimeout = 1000` (the backoff base delay, ms). -/
def reconnectTimeout : Nat := 1000

/-- The fixed response-correlation timeout in `sendFrame`/`sendAudio`
(`setTimeout(..., 5000)`). -/
def responseTimeoutMs : Nat := 5000

/-- The JSON envelope sent over the socket:
`{type: "frame", data: {video, audio, timestamp}}` built by
`sendFrameInternal`, or `{type: "audio", data: {audio, timestamp}}`
built by `sendAudio`. -/
inductive WireMessage where
  | frameMsg (video : String) (audio : String) (timestamp : Nat)
  | audioMsg (audio : String) (timestamp : Nat)
deriving Repr, DecidableEq

/-- Externally observable effects of a client operation, in order. -/
inductive Effect (P : Type) where
  | callOnMessage (d : P)
  | callOnError (msg : String)
  | callOnConnectionState (b : Bool)
  | scheduleRetry (delayMs : Nat)
  | wsSend (m : WireMessage)
  | closeSocket
deriving Repr, DecidableEq

/-- `this.ws && this.ws.readyState === WebSocket.OPEN`. -/
def ClientState.socketOpen {C : Type} (s : ClientState C) : Bool :=
  match s.ws with
  | some w => w.readyState == WebSocket.OPEN
  | none => false

/-- The fully reset client state that `disconnect()` leaves behind. -/
def resetState {C : Type} : ClientState C :=
  { ws := none
    reconnectAttempts := 0
    isConnecting := false
    callbacks := none
    frameQueue := []
    isProcessingQueue := false }

/-- `disconnect()`: close the socket if present, null it out, clear the
connecting flag, the retry counter, the callbacks, the frame queue and
the queue-processing flag. -/
def disconnect {C P : Type} (s : ClientState C) :
    ClientState C × List (Effect P) :=
  (resetState,
   match s.ws with
   | some _ => [Effect.closeSocket]
   | none => [])

/-- `handleReconnect()`: bail out if no callbacks are registered; if
fewer than `maxReconnectAttempts` attempts have been made, increment
the counter and schedule a retry after
`reconnectTimeout * 2 ^ (reconnectAttempts - 1)` ms (with the counter
already incremented); otherwise report a terminal error via `onError`
and call `disconnect()`. -/
def handleReconnect {C P : Type} (s : ClientState C) :
    ClientState C × List (Effect P) :=
  match s.callbacks with
  | none => (s, [])
  | some _ =>
    if s.reconnectAttempts < maxReconnectAttempts then
      let n := s.reconnectAttempts + 1
      let delay := reconnectTimeout * 2 ^ (n - 1)
      ({ s with reconnectAttempts := n }, [Effect.scheduleRetry delay])
    else
      let r := disconnect (P := P) s
      (r.1,
       Effect.callOnError "Failed to connect to server. Please refresh the page." :: r.2)

/-- `initializeWebSocket(callbacks)`: return immediately if a connection
attempt is in flight; otherwise store the callbacks, set the connecting
flag and construct the socket. `ctorOk` says whether `new WebSocket`
succeeds; on failure the catch block clears the connecting flag,
reports the error and enters the reconnect path. -/
def initializeWebSocket {C P : Type} (ctorOk : Bool) (cbs : C)
    (s : ClientState C) : ClientState C × List (Effect P) :=
  if s.isConnecting then (s, [])
  else
    let s1 := { s with callbacks := some cbs, isConnecting := true }
    if ctorOk then
      ({ s1 with ws := some { readyState := WebSocket.CONNECTING } }, [])
    else
      let s2 := { s1 with isConnecting := false }
      let r := handleReconnect (P := P) s2
      (r.1,
       Effect.callOnConnectionState false ::
       Effect.callOnError "Failed to establish connection" :: r.2)

/-- The `ws.onmessage` handler: `JSON.parse` the event data; on success
invoke `onMessage` with the parsed frame, on a parse error invoke
`onError` with a fixed message. Neither branch touches the client state,
closes the socket or enters the reconnect path. -/
def onMessageHandler {C P : Type} (parse : String → Option P)
    (s : ClientState C) (raw : String) : ClientState C × List (Effect P) :=
  match parse raw with
  | some d =>
    (s, match s.callbacks with
        | some _ => [Effect.callOnMessage d]
        | none => [])
  | none =>
    (s, match s.callbacks with
        | some _ => [Effect.callOnError "Failed to parse server message"]
        | none => [])

/-- The body of the `while` loop of `processFrameQueue`: repeatedly
`shift` the head frame and send it; on a send failure `unshift` it back
and break. Returns the frames sent, in order, and the remaining queue. -/
def flushLoop (sendOk : WebcamStream → Bool) :
    List WebcamStream → List WebcamStream × List WebcamStream
  | [] => ([], [])
  | f :: rest =>
    if sendOk f then
      let r := flushLoop sendOk rest
      (f :: r.1, r.2)
    else ([], f :: rest)

/-- `processFrameQueue()`: return immediately if a flush is already
running or the socket is not open; otherwise drain the queue front to
back, stopping at the first send failure and putting the failed frame
back at the start of the queue. Returns the frames sent, in order. -/
def processFrameQueue {C : Type} (sendOk : WebcamStream → Bool)
    (s : ClientState C) : ClientState C × List WebcamStream :=
  if s.isProcessingQueue || !s.socketOpen then (s, [])
  else
    let r := flushLoop sendOk s.frameQueue
    ({ s with frameQueue := r.2, isProcessingQueue := false }, r.1)

/-- The JSON message built by `sendFrameInternal`: video and audio blobs
base64-encoded into a `type: "frame"` envelope with the frame's
timestamp. -/
def sendFrameInternal (b64 : String → String) (f : WebcamStream) : WireMessage :=
  WireMessage.frameMsg (b64 f.video) (b64 f.audio) f.timestamp

/-- Outcome of the one-shot response listener installed after a send:
a reply arrived and parsed, a reply arrived but failed to parse, or the
5-second timeout fired first. -/
inductive ReplyOutcome (P : Type) where
  | received (d : P)
  | malformed
  | timeout
deriving Repr, DecidableEq

/-- How the promise returned by `sendFrame`/`sendAudio` settles. -/
inductive SendResult (P : Type) where
  | resolved (v : Option P)
  | rejected
deriving Repr, DecidableEq

/-- The one-shot listener semantics: a parsed reply resolves with the
data, a parse failure rejects, the timeout resolves with `null`. -/
def awaitResponse {P : Type} : ReplyOutcome P → SendResult P
  | ReplyOutcome.received d => SendResult.resolved (some d)
  | ReplyOutcome.malformed => SendResult.rejected
  | ReplyOutcome.timeout => SendResult.resolved none

/-- `sendFrame(frame)`: if the socket is not open, push the frame on the
queue, call `processFrameQueue()` and resolve `null`; otherwise send the
base64 JSON envelope and await the correlated reply; if the send throws,
push the frame on the queue, call `processFrameQueue()` and resolve
`null`. -/
def sendFrame {C P : Type} (b64 : String → String)
    (sendOk : WebcamStream → Bool) (reply : ReplyOutcome P)
    (s : ClientState C) (f : WebcamStream) :
    ClientState C × List (Effect P) × SendResult P :=
  if s.socketOpen then
    if sendOk f then
      (s, [Effect.wsSend (sendFrameInternal b64 f)], awaitResponse reply)
    else
      let s1 := { s with frameQueue := s.frameQueue ++ [f] }
      let r := processFrameQueue sendOk s1
      (r.1, r.2.map (fun g => Effect.wsSend (sendFrameInternal b64 g)),
       SendResult.resolved none)
  else
    let s1 := { s with frameQueue := s.frameQueue ++ [f] }
    let r := processFrameQueue sendOk s1
    (r.1, r.2.map (fun g => Effect.wsSend (sendFrameInternal b64 g)),
     SendResult.resolved none)

/-- `sendAudio(audioBlob)`: if the socket is not open, resolve `null`
immediately (no queueing, no state change); otherwise send the base64
`type: "audio"` envelope stamped with `Date.now()` (`now`) and await the
correlated reply; if the conversion or send throws, resolve `null`. -/
def sendAudio {C P : Type} (b64 : String → String) (now : Nat)
    (sendOk : Bool) (reply : ReplyOutcome P) (s : ClientState C)
    (audioBlob : String) : ClientState C × List (Effect P) × SendResult P :=
  if s.socketOpen then
    if sendOk then
      (s, [Effect.wsSend (WireMessage.audioMsg (b64 audioBlob) now)],
       awaitResponse reply)
    else (s, [], SendResult.resolved none)
  else (s, [], SendResult.resolved none)

/-- The `ws.onopen` handler, fired when the socket's ready state becomes
`OPEN`: reset the retry counter, clear the connecting flag, report the
connected state, then flush the queue via `processFrameQueue()`.
Returns the new state and the frames sent during the flush, in order. -/
def onOpenHandler {C : Type} (sendOk : WebcamStream → Bool)
    (s : ClientState C) : ClientState C × List WebcamStream :=
  let s1 := { s with
    ws := some { readyState := WebSocket.OPEN }
    reconnectAttempts := 0
    isConnecting := false }
  processFrameQueue sendOk s1

/-- Folding `sendFrame` over a list of frames, keeping only the state:
the frames a caller submits one after the other. -/
def enqueueFrames {C P : Type} (b64 : String → String)
    (sendOk : WebcamStream → Bool) (reply : ReplyOutcome P)
    (s : ClientState C) (frames : List WebcamStream) : ClientState C :=
  frames.foldl (fun acc f => (sendFrame b64 sendOk reply acc f).1) s

/-- A flush over a queue whose sends all succeed sends every frame in
queue order and empties the queue. -/
theorem flushLoop_all_ok (sendOk : WebcamStream → Bool)
    (q : List WebcamStream) (h : ∀ f ∈ q, sendOk f = true) :
    flushLoop sendOk q = (q, []) := by
  induction q with
  | nil => simp [flushLoop]
  | cons f rest ih =>
    have hf := h f (List.mem_cons_self f rest)
    have hrest := ih fun g hg => h g (List.mem_cons_of_mem f hg)
    simp [flushLoop, hf, hrest]

/-- A flush that fails at frame `f` after the frames of `pre` all went
out sends exactly `pre` and leaves `f :: post` as the queue. -/
theorem flushLoop_fail (sendOk : WebcamStream → Bool)
    (pre : List WebcamStream) (f : WebcamStream) (post : List WebcamStream)
    (hpre : ∀ g ∈ pre, sendOk g = true) (hf : sendOk f = false) :
    flushLoop sendOk (pre ++ f :: post) = (pre, f :: post) := by
  induction pre with
  | nil => simp [flushLoop, hf]
  | cons g rest ih =>
    have hg := hpre g (List.mem_cons_self g rest)
    have hrest := ih fun x hx => hpre x (List.mem_cons_of_mem g hx)
    simp [flushLoop, hg, hrest]

/-- `sendFrame` on a non-open socket only appends the frame to the
queue (the triggered flush is a no-op because the socket is not open)
and resolves `null` without sending anything. -/
theorem sendFrame_not_open {C P : Type} (b64 : String → String)
    (sendOk : WebcamStream → Bool) (reply : ReplyOutcome P)
    (s : ClientState C) (f : WebcamStream) (h : s.socketOpen = false) :
    sendFrame b64 sendOk reply s f =
      ({ s with frameQueue := s.frameQueue ++ [f] }, ([] : List (Effect P)),
       SendResult.resolved none) := by
  have h1 : ClientState.socketOpen { s with frameQueue := s.frameQueue ++ [f] } =
      s.socketOpen := rfl
  simp [sendFrame, processFrameQueue, h, h1]

/-- Submitting frames one by one against a non-open socket appends them
to the queue in submission order and changes nothing else. -/
theorem enqueueFrames_not_open {C P : Type} (b64 : String → String)
    (sendOk : WebcamStream → Bool) (reply : ReplyOutcome P)
    (s : ClientState C) (frames : List WebcamStream)
    (h : s.socketOpen = false) :
    enqueueFrames b64 sendOk reply s frames =
      { s with frameQueue := s.frameQueue ++ frames } := by
  induction frames generalizing s with
  | nil => simp [enqueueFrames]
  | cons f fs ih =>
    have hstep := sendFrame_not_open b64 sendOk reply s f h
    have h1 : ClientState.socketOpen { s with frameQueue := s.frameQueue ++ [f] } =
        s.socketOpen := rfl
    have htail := ih { s with frameQueue := s.frameQueue ++ [f] } (h1.trans h)
    simp [enqueueFrames] at htail ⊢
    rw [hstep]
    simpa using htail

/-- Claim C1: each reconnect attempt `n` (for `1 ≤ n ≤ 5`) schedules a
retry after `reconnectTimeout * 2 ^ (n - 1)` ms; once the counter has
reached the maximum, the next failure schedules no retry, reports the
terminal error through `onError`, and tears the client state down to
the fully reset state (socket, callbacks, queue and counters cleared). -/
theorem handleReconnect_backoff_and_terminal {C P : Type}
    (s : ClientState C) (cb : C) (n : Nat) (hcb : s.callbacks = some cb) :
    (1 ≤ n → n ≤ maxReconnectAttempts → s.reconnectAttempts = n - 1 →
      handleReconnect (P := P) s =
        ({ s with reconnectAttempts := n },
         [Effect.scheduleRetry (reconnectTimeout * 2 ^ (n - 1))])) ∧
    (maxReconnectAttempts ≤ s.reconnectAttempts →
      (handleReconnect (P := P) s).1 = resetState ∧
      (handleReconnect (P := P) s).2 =
        Effect.callOnError "Failed to connect to server. Please refresh the page." ::
          (match s.ws with
           | some _ => [Effect.closeSocket]
           | none => []) ∧
      ∀ d, Effect.scheduleRetry d ∉ (handleReconnect (P := P) s).2) := by
  constructor
  · intro h1 h2 h3
    have hlt : s.reconnectAttempts < maxReconnectAttempts := by
      simp only [maxReconnectAttempts] at h2 ⊢
      omega
    have hn : s.reconnectAttempts + 1 = n := by omega
    simp [handleReconnect, hcb, hlt, hn]
  · intro h
    have hnlt : ¬ s.reconnectAttempts < maxReconnectAttempts := by omega
    refine ⟨?_, ?_, ?_⟩
    · simp [handleReconnect, hcb, hnlt, disconnect]
    · cases hws : s.ws <;>
        simp [handleReconnect, hcb, hnlt, disconnect, hws]
    · intro d
      cases hws : s.ws <;>
        simp [handleReconnect, hcb, hnlt, disconnect, hws]

/-- Concrete instances for the backoff theorem: attempt 3 from a state
with two recorded attempts schedules a 4000 ms retry; a state at the
attempt cap reports the terminal error, tears down, and schedules
nothing. -/
theorem handleReconnect_backoff_and_terminal_witness :
    (handleReconnect (P := Nat)
        ({ ws := none, reconnectAttempts := 2, isConnecting := false,
           callbacks := some 0, frameQueue := [], isProcessingQueue := false } :
          ClientState Nat) =
      ({ ws := none, reconnectAttempts := 3, isConnecting := false,
         callbacks := some 0, frameQueue := [], isProcessingQueue := false },
       [Effect.scheduleRetry 4000])) ∧
    ((handleReconnect (P := Nat)
        ({ ws := some { readyState := 3 }, reconnectAttempts := 5,
           isConnecting := false, callbacks := some 0, frameQueue := [],
           isProcessingQueue := false } : ClientState Nat)).1 = resetState ∧
     (handleReconnect (P := Nat)
        ({ ws := some { readyState := 3 }, reconnectAttempts := 5,
           isConnecting := false, callbacks := some 0, frameQueue := [],
           isProcessingQueue := false } : ClientState Nat)).2 =
       [Effect.callOnError "Failed to connect to server. Please refresh the page.",
        Effect.closeSocket] ∧
     ∀ d, Effect.scheduleRetry d ∉
       (handleReconnect (P := Nat)
          ({ ws := some { readyState := 3 }, reconnectAttempts := 5,
             isConnecting := false, callbacks := some 0, frameQueue := [],
             isProcessingQueue := false } : ClientState Nat)).2) := by
  constructor
  · exact ((handleReconnect_backoff_and_terminal _ 0 3 rfl).1
      (by decide) (by decide) (by decide)).trans (by decide)
  · have h := (handleReconnect_backoff_and_terminal (P := Nat)
      ({ ws := some { readyState := 3 }, reconnectAttempts := 5,
         isConnecting := false, callbacks := some 0, frameQueue := [],
         isProcessingQueue := false } : ClientState Nat) 0 0 rfl).2 (by decide)
    exact ⟨h.1, h.2.1.trans (by decide), h.2.2⟩

/-- Claim C2: frames submitted while the socket is down are queued in
submission order, and when the socket opens the flush sends them in
exactly that order (FIFO), leaving the queue empty. -/
theorem queue_flushed_in_fifo_order {C P : Type} (b64 : String → String)
    (sendOk : WebcamStream → Bool) (reply : ReplyOutcome P)
    (s : ClientState C) (frames : List WebcamStream)
    (hclosed : s.socketOpen = false) (hq : s.frameQueue = [])
    (hflag : s.isProcessingQueue = false)
    (hok : ∀ f ∈ frames, sendOk f = true) :
    (onOpenHandler sendOk (enqueueFrames b64 sendOk reply s frames)).2 = frames ∧
    (onOpenHandler sendOk (enqueueFrames b64 sendOk reply s frames)).1.frameQueue = [] := by
  have henq := enqueueFrames_not_open b64 sendOk reply s frames hclosed
  rw [henq, hq]
  simp [onOpenHandler, processFrameQueue, hflag, ClientState.socketOpen,
    WebSocket.OPEN, flushLoop_all_ok sendOk frames hok]

/-- Concrete instance for the FIFO flush theorem: two frames queued
while disconnected are sent in submission order on open. -/
theorem queue_flushed_in_fifo_order_witness :
    (onOpenHandler (fun _ => true)
        (enqueueFrames (P := Nat) (fun x => x) (fun _ => true) ReplyOutcome.timeout
          ({ ws := none, reconnectAttempts := 0, isConnecting := false,
             callbacks := some 0, frameQueue := [], isProcessingQueue := false } :
            ClientState Nat)
          [{ video := "v1", audio := "a1", timestamp := 1 },
           { video := "v2", audio := "a2", timestamp := 2 }])).2 =
      [{ video := "v1", audio := "a1", timestamp := 1 },
       { video := "v2", audio := "a2", timestamp := 2 }] ∧
    (onOpenHandler (fun _ => true)
        (enqueueFrames (P := Nat) (fun x => x) (fun _ => true) ReplyOutcome.timeout
          ({ ws := none, reconnectAttempts := 0, isConnecting := false,
             callbacks := some 0, frameQueue := [], isProcessingQueue := false } :
            ClientState Nat)
          [{ video := "v1", audio := "a1", timestamp := 1 },
           { video := "v2", audio := "a2", timestamp := 2 }])).1.frameQueue = [] :=
  queue_flushed_in_fifo_order _ _ _ _ _ (by decide) (by decide) (by decide)
    (by decide)

/-- Claim C3: a send failure mid-flush halts the flush; only the frames
before the failed one went out, and the queue afterwards is the failed
frame followed by the not-yet-attempted frames in their prior order. -/
theorem flush_failure_requeues_at_front {C : Type}
    (sendOk : WebcamStream → Bool) (s : ClientState C)
    (pre : List WebcamStream) (f : WebcamStream) (post : List WebcamStream)
    (hopen : s.socketOpen = true) (hflag : s.isProcessingQueue = false)
    (hq : s.frameQueue = pre ++ f :: post)
    (hpre : ∀ g ∈ pre, sendOk g = true) (hf : sendOk f = false) :
    (processFrameQueue sendOk s).1.frameQueue = f :: post ∧
    (processFrameQueue sendOk s).2 = pre := by
  simp [processFrameQueue, hopen, hflag, hq,
    flushLoop_fail sendOk pre f post hpre hf]

/-- Concrete instance for the requeue-at-front theorem: with queue
`[f0, f1, f2]` and the send of `f1` failing, the flush sends `[f0]` and
leaves `[f1, f2]`. -/
theorem flush_failure_requeues_at_front_witness :
    (processFrameQueue (fun g => g.timestamp == 0)
        ({ ws := some { readyState := 1 }, reconnectAttempts := 0,
           isConnecting := false, callbacks := some 0,
           frameQueue := [{ video := "v0", audio := "a0", timestamp := 0 },
                          { video := "v1", audio := "a1", timestamp := 1 },
                          { video := "v2", audio := "a2", timestamp := 2 }],
           isProcessingQueue := false } : ClientState Nat)).1.frameQueue =
      [{ video := "v1", audio := "a1", timestamp := 1 },
       { video := "v2", audio := "a2", timestamp := 2 }] ∧
    (processFrameQueue (fun g => g.timestamp == 0)
        ({ ws := some { readyState := 1 }, reconnectAttempts := 0,
           isConnecting := false, callbacks := some 0,
           frameQueue := [{ video := "v0", audio := "a0", timestamp := 0 },
                          { video := "v1", audio := "a1", timestamp := 1 },
                          { video := "v2", audio := "a2", timestamp := 2 }],
           isProcessingQueue := false } : ClientState Nat)).2 =
      [{ video := "v0", audio := "a0", timestamp := 0 }] :=
  flush_failure_requeues_at_front _ _
    [{ video := "v0", audio := "a0", timestamp := 0 }]
    { video := "v1", audio := "a1", timestamp := 1 }
    [{ video := "v2", audio := "a2", timestamp := 2 }]
    (by decide) (by decide) (by decide) (by decide) (by decide)

/-- Claim C4: with an open socket, `sendFrame` sends the base64 JSON
envelope `{type: "frame", data: {video, audio, timestamp}}` and settles
according to the one-shot reply listener, whose 5000 ms timeout
resolves `null` instead of rejecting; with a non-open socket it appends
the frame to the queue, attempts a flush (a no-op while closed) and
resolves `null`. -/
theorem sendFrame_protocol {C P : Type} (b64 : String → String)
    (sendOk : WebcamStream → Bool) (reply : ReplyOutcome P)
    (s : ClientState C) (f : WebcamStream) :
    (s.socketOpen = true → sendOk f = true →
      sendFrame b64 sendOk reply s f =
        (s, [Effect.wsSend
              (WireMessage.frameMsg (b64 f.video) (b64 f.audio) f.timestamp)],
         awaitResponse reply)) ∧
    awaitResponse (ReplyOutcome.timeout : ReplyOutcome P) =
      SendResult.resolved none ∧
    responseTimeoutMs = 5000 ∧
    (s.socketOpen = false →
      sendFrame b64 sendOk reply s f =
        ({ s with frameQueue := s.frameQueue ++ [f] }, [],
         SendResult.resolved none)) := by
  refine ⟨?_, rfl, rfl, ?_⟩
  · intro ho hs
    simp [sendFrame, sendFrameInternal, ho, hs]
  · intro hc
    exact sendFrame_not_open b64 sendOk reply s f hc

/-- Concrete instances for the `sendFrame` theorem: an open-socket send
of a frame with timestamp 7 whose reply times out resolves `null`, and
a closed-socket send queues the frame and resolves `null`. -/
theorem sendFrame_protocol_witness :
    (sendFrame (P := Nat) (fun x => x) (fun _ => true) ReplyOutcome.timeout
        ({ ws := some { readyState := 1 }, reconnectAttempts := 0,
           isConnecting := false, callbacks := some 0, frameQueue := [],
           isProcessingQueue := false } : ClientState Nat)
        { video := "v", audio := "a", timestamp := 7 } =
      ({ ws := some { readyState := 1 }, reconnectAttempts := 0,
         isConnecting := false, callbacks := some 0, frameQueue := [],
         isProcessingQueue := false },
       [Effect.wsSend (WireMessage.frameMsg "v" "a" 7)],
       SendResult.resolved none)) ∧
    (sendFrame (P := Nat) (fun x => x) (fun _ => true) ReplyOutcome.timeout
        ({ ws := none, reconnectAttempts := 0, isConnecting := false,
           callbacks := some 0, frameQueue := [], isProcessingQueue := false } :
          ClientState Nat)
        { video := "v", audio := "a", timestamp := 7 } =
      ({ ws := none, reconnectAttempts := 0, isConnecting := false,
         callbacks := some 0,
         frameQueue := [{ video := "v", audio := "a", timestamp := 7 }],
         isProcessingQueue := false }, [], SendResult.resolved none)) := by
  constructor
  · exact ((sendFrame_protocol (fun x => x) (fun _ => true) ReplyOutcome.timeout
      _ _).1 (by decide) (by decide)).trans (by decide)
  · exact ((sendFrame_protocol (fun x => x) (fun _ => true) ReplyOutcome.timeout
      _ _).2.2.2 (by decide)).trans (by decide)

/-- Claim C5: a message that fails to parse invokes `onError` exactly
once with the fixed parse-error text, leaves the client state (socket
included) untouched, and neither closes the socket nor schedules a
reconnect. -/
theorem malformed_message_single_error {C P : Type}
    (parse : String → Option P) (s : ClientState C) (raw : String) (cb : C)
    (hcb : s.callbacks = some cb) (hbad : parse raw = none) :
    onMessageHandler parse s raw =
      (s, [Effect.callOnError "Failed to parse server message"]) ∧
    Effect.closeSocket ∉ (onMessageHandler parse s raw).2 ∧
    ∀ d, Effect.scheduleRetry d ∉ (onMessageHandler parse s raw).2 := by
  have h : onMessageHandler parse s raw =
      (s, [Effect.callOnError "Failed to parse server message"]) := by
    simp [onMessageHandler, hbad, hcb]
  refine ⟨h, ?_, ?_⟩
  · simp [h]
  · intro d
    simp [h]

/-- Concrete instance for the malformed-message theorem, with a parser
that rejects everything and an open connected state. -/
theorem malformed_message_single_error_witness :
    (onMessageHandler (fun _ => (none : Option Nat))
        ({ ws := some { readyState := 1 }, reconnectAttempts := 0,
           isConnecting := false, callbacks := some 0, frameQueue := [],
           isProcessingQueue := false } : ClientState Nat) "not json" =
      ({ ws := some { readyState := 1 }, reconnectAttempts := 0,
         isConnecting := false, callbacks := some 0, frameQueue := [],
         isProcessingQueue := false },
       [Effect.callOnError "Failed to parse server message"])) ∧
    Effect.closeSocket ∉
      (onMessageHandler (fun _ => (none : Option Nat))
        ({ ws := some { readyState := 1 }, reconnectAttempts := 0,
           isConnecting := false, callbacks := some 0, frameQueue := [],
           isProcessingQueue := false } : ClientState Nat) "not json").2 ∧
    ∀ d, Effect.scheduleRetry d ∉
      (onMessageHandler (fun _ => (none : Option Nat))
        ({ ws := some { readyState := 1 }, reconnectAttempts := 0,
           isConnecting := false, callbacks := some 0, frameQueue := [],
           isProcessingQueue := false } : ClientState Nat) "not json").2 :=
  malformed_message_single_error _ _ "not json" 0 rfl rfl

/-- Claim C6: `disconnect()` leaves exactly the reset state (socket
handle, callbacks, retry counter, queue, connecting and processing
flags all cleared), emits a socket close when a socket was held, and a
second `disconnect()` from the reset state changes nothing and emits no
effect. -/
theorem disconnect_resets_and_idempotent {C P : Type} (s : ClientState C) :
    (disconnect (P := P) s).1 = resetState ∧
    (s.ws.isSome = true → (disconnect (P := P) s).2 = [Effect.closeSocket]) ∧
    disconnect (P := P) ((disconnect (P := P) s).1) =
      ((disconnect (P := P) s).1, ([] : List (Effect P))) := by
  refine ⟨rfl, ?_, rfl⟩
  intro h
  cases hws : s.ws with
  | none => rw [hws] at h; cases h
  | some w => simp [disconnect, hws]

/-- Concrete instance for the `disconnect` theorem, starting from a
connected state with a non-trivial queue and counters. -/
theorem disconnect_resets_and_idempotent_witness :
    ((disconnect (P := Nat)
        ({ ws := some { readyState := 1 }, reconnectAttempts := 3,
           isConnecting := true, callbacks := some 0,
           frameQueue := [{ video := "v", audio := "a", timestamp := 1 }],
           isProcessingQueue := true } : ClientState Nat)).1 = resetState) ∧
    ((disconnect (P := Nat)
        ({ ws := some { readyState := 1 }, reconnectAttempts := 3,
           isConnecting := true, callbacks := some 0,
           frameQueue := [{ video := "v", audio := "a", timestamp := 1 }],
           isProcessingQueue := true } : ClientState Nat)).2 =
      [Effect.closeSocket]) ∧
    (disconnect (P := Nat)
        ((disconnect (P := Nat)
          ({ ws := some { readyState := 1 }, reconnectAttempts := 3,
             isConnecting := true, callbacks := some 0,
             frameQueue := [{ video := "v", audio := "a", timestamp := 1 }],
             isProcessingQueue := true } : ClientState Nat)).1) =
      ((disconnect (P := Nat)
          ({ ws := some { readyState := 1 }, reconnectAttempts := 3,
             isConnecting := true, callbacks := some 0,
             frameQueue := [{ video := "v", audio := "a", timestamp := 1 }],
             isProcessingQueue := true } : ClientState Nat)).1,
       ([] : List (Effect Nat)))) := by
  have h := disconnect_resets_and_idempotent (P := Nat)
    ({ ws := some { readyState := 1 }, reconnectAttempts := 3,
       isConnecting := true, callbacks := some 0,
       frameQueue := [{ video := "v", audio := "a", timestamp := 1 }],
       isProcessingQueue := true } : ClientState Nat)
  exact ⟨h.1, h.2.1 (by decide), h.2.2⟩

/-- Claim C7: after `disconnect()`, a `sendFrame` finds the socket gone,
queues the frame into the (previously cleared) queue — which then holds
exactly that frame — sends nothing, and resolves `null`. -/
theorem sendFrame_after_disconnect_queues_fresh {C P : Type}
    (b64 : String → String) (sendOk : WebcamStream → Bool)
    (reply : ReplyOutcome P) (s : ClientState C) (f : WebcamStream) :
    sendFrame b64 sendOk reply ((disconnect (P := P) s).1) f =
      ({ (resetState : ClientState C) with frameQueue := [f] },
       ([] : List (Effect P)), SendResult.resolved none) := by
  have h : ((disconnect (P := P) s).1 : ClientState C).socketOpen = false := rfl
  simpa using
    sendFrame_not_open b64 sendOk reply ((disconnect (P := P) s).1) f h

/-- Claim C8: while a connection attempt is in flight, a call to
`initializeWebSocket` changes nothing — same state (callbacks
included), no socket construction, no effects. -/
theorem initializeWebSocket_noop_when_connecting {C P : Type}
    (ctorOk : Bool) (cbs : C) (s : ClientState C)
    (h : s.isConnecting = true) :
    initializeWebSocket (P := P) ctorOk cbs s = (s, []) := by
  simp [initializeWebSocket, h]

/-- Concrete instance for the in-flight no-op theorem: re-initializing
with a different callback set while connecting leaves the stored set
and all other fields unchanged. -/
theorem initializeWebSocket_noop_when_connecting_witness :
    initializeWebSocket (P := Nat) true 2
        ({ ws := none, reconnectAttempts := 1, isConnecting := true,
           callbacks := some 0, frameQueue := [], isProcessingQueue := false } :
          ClientState Nat) =
      ({ ws := none, reconnectAttempts := 1, isConnecting := true,
         callbacks := some 0, frameQueue := [], isProcessingQueue := false },
       []) :=
  initializeWebSocket_noop_when_connecting true 2 _ (by decide)

/-- Claim C9 fails as stated: a call made while a connection attempt is
in flight is a no-op, so the stored callbacks stay the old set rather
than the argument. -/
theorem initializeWebSocket_overwrite_cex :
    (initializeWebSocket (P := Nat) true 1
        ({ ws := none, reconnectAttempts := 0, isConnecting := true,
           callbacks := some 0, frameQueue := [], isProcessingQueue := false } :
          ClientState Nat)).1.callbacks ≠ some 1 := by
  decide

/-- Claim C9 (amended): any call to `initializeWebSocket` made while no
connection attempt is in flight — and which does not end in the
terminal reconnect teardown (the constructor succeeds, or the retry
counter is below the maximum) — stores exactly the given callbacks,
overwriting the previous set. -/
theorem initializeWebSocket_overwrites_callbacks {C P : Type}
    (ctorOk : Bool) (cbs : C) (s : ClientState C)
    (hconn : s.isConnecting = false)
    (hsafe : ctorOk = true ∨ s.reconnectAttempts < maxReconnectAttempts) :
    (initializeWebSocket (P := P) ctorOk cbs s).1.callbacks = some cbs := by
  rcases hsafe with h | h
  · simp [initializeWebSocket, hconn, h]
  · cases ctorOk with
    | true => simp [initializeWebSocket, hconn]
    | false => simp [initializeWebSocket, hconn, handleReconnect, h]

/-- Concrete instance for the overwrite theorem: re-initializing an
idle client that held callback set 1 with callback set 2 stores set 2. -/
theorem initializeWebSocket_overwrites_callbacks_witness :
    (initializeWebSocket (P := Nat) true 2
        ({ ws := none, reconnectAttempts := 0, isConnecting := false,
           callbacks := some 1, frameQueue := [], isProcessingQueue := false } :
          ClientState Nat)).1.callbacks = some 2 :=
  initializeWebSocket_overwrites_callbacks true 2 _ (by decide)
    (Or.inl (by decide))

/-- Claim C10: with a non-open socket, `sendAudio` resolves `null`
immediately: the state is untouched (in particular nothing is queued,
unlike `sendFrame`) and nothing is sent. -/
theorem sendAudio_not_open_noop {C P : Type} (b64 : String → String)
    (now : Nat) (sendOk : Bool) (reply : ReplyOutcome P)
    (s : ClientState C) (audioBlob : String) (h : s.socketOpen = false) :
    sendAudio b64 now sendOk reply s audioBlob =
      (s, ([] : List (Effect P)), SendResult.resolved none) := by
  simp [sendAudio, h]

/-- Concrete instance for the `sendAudio` theorem: a disconnected state
with a non-empty queue is returned unchanged — the audio blob is not
queued. -/
theorem sendAudio_not_open_noop_witness :
    sendAudio (P := Nat) (fun x => x) 42 true ReplyOutcome.timeout
        ({ ws := none, reconnectAttempts := 2, isConnecting := false,
           callbacks := some 0,
           frameQueue := [{ video := "v", audio := "a", timestamp := 1 }],
           isProcessingQueue := false } : ClientState Nat) "blob" =
      ({ ws := none, reconnectAttempts := 2, isConnecting := false,
         callbacks := some 0,
         frameQueue := [{ video := "v", audio := "a", timestamp := 1 }],
         isProcessingQueue := false }, [], SendResult.resolved none) :=
  sendAudio_not_open_noop (fun x => x) 42 true ReplyOutcome.timeout _ "blob"
    (by decide)

end NeuroLens
